import Mathlib

/-!
Verification development for the serverless grid-compliance pipeline
(`lambda_function.py`).  The handler downloads a grid-model artifact from
object storage, runs a load-flow solve, evaluates per-bus voltage
magnitudes against the VDE-AR-N 4110 band [0.90, 1.10] pu, and persists a
compliance record to a key-value store keyed by the object key.

Modelling conventions:
* per-unit voltages are rationals (`ℚ`); Python `round(x, 4)` is modelled
  as round-half-to-even at 4 fractional digits;
* the external collaborators (object storage, the pandapower solver, the
  DynamoDB table) are modelled by an explicit `Backend` oracle describing
  the outcome of each call, and the table is an association list with
  whole-item overwrite on put;
* a Python exception propagating out of the handler is `Except.error msg`
  carrying the exception message; a normal return is `Except.ok v` where
  `v : Option LambdaResponse` (`none` is Python `None`).
-/

/-- `VOLTAGE_MIN_PU = 0.90` from the configuration block. -/
def VOLTAGE_MIN_PU : ℚ := 9 / 10

/-- `VOLTAGE_MAX_PU = 1.10` from the configuration block. -/
def VOLTAGE_MAX_PU : ℚ := 11 / 10

/-- Floor of a rational, computed on the reduced fraction: the
denominator is positive, so Euclidean division of `num` by `den` is the
mathematical floor (see `ratFloor_eq_floor`). -/
def ratFloor (q : ℚ) : ℤ := q.num / q.den

/-- Round-half-to-even to the nearest integer, the tie-breaking rule used
by Python `round`. -/
def roundHalfEven (q : ℚ) : ℤ :=
  let f : ℤ := ratFloor q
  let r : ℚ := q - f
  if r < 1 / 2 then f
  else if r > 1 / 2 then f + 1
  else if f % 2 = 0 then f else f + 1

/-- Python `round(x, 4)`: round half-to-even at 4 fractional digits. -/
def round4 (q : ℚ) : ℚ := (roundHalfEven (q * 10000) : ℚ) / 10000

/-- One violation entry as appended by the compliance loop:
`{'bus_id': ..., 'voltage_pu': ..., 'type': ...}`. -/
structure Violation where
  bus_id : Nat
  voltage_pu : ℚ
  type : String
deriving DecidableEq, Repr

/-- The body of the compliance loop for one `(bus_idx, vm_pu)` row:
emit a violation iff `vm_pu < VOLTAGE_MIN_PU or vm_pu > VOLTAGE_MAX_PU`,
with `voltage_pu = round(vm_pu, 4)` and the type chosen by the
undervoltage comparison first. -/
def checkViolation (p : Nat × ℚ) : Option Violation :=
  if p.2 < VOLTAGE_MIN_PU ∨ p.2 > VOLTAGE_MAX_PU then
    some { bus_id := p.1
           voltage_pu := round4 p.2
           type := if p.2 < VOLTAGE_MIN_PU then "Undervoltage" else "Overvoltage" }
  else none

/-- The compliance loop over the `net.res_bus` rows in iteration order:
collect the violation entries. -/
def evaluateViolations (bvs : List (Nat × ℚ)) : List Violation :=
  bvs.filterMap checkViolation

/-- `status = "FAIL" if violations else "PASS"`. -/
def evalStatus (bvs : List (Nat × ℚ)) : String :=
  if (evaluateViolations bvs).isEmpty then "PASS" else "FAIL"

/-- Replace every per-bus voltage by its 4-digit rounding (the
"already rounded" inputs of the rounding-idempotence property). -/
def roundInputs (bvs : List (Nat × ℚ)) : List (Nat × ℚ) :=
  bvs.map fun p => (p.1, round4 p.2)

/-- The item written by `_log_result` via `table.put_item`. -/
structure ComplianceRecord where
  grid_id : String
  timestamp : String
  status : String
  compliance_standard : String
  violations : List Violation
  processed_by : String
deriving DecidableEq, Repr

/-- The DynamoDB table `GridComplianceResults`: an association list from
the partition key `grid_id` to the stored item. -/
abbrev Table := List (String × ComplianceRecord)

/-- `put_item`: whole-item overwrite of the entry with the same key, or
insertion when the key is absent. -/
def putItem : Table → ComplianceRecord → Table
  | [], r => [(r.grid_id, r)]
  | p :: t, r => if p.1 = r.grid_id then (r.grid_id, r) :: t else p :: putItem t r

/-- One entry of the triggering event's `Records` list, flattened to the
two fields the handler reads: `record['s3']['bucket']['name']` and
`record['s3']['object']['key']`. -/
structure S3EventRecord where
  bucket_name : String
  object_key : String
deriving DecidableEq, Repr

/-- Outcome of `s3.download_file` followed by `pp.from_json`. -/
inductive LoadOutcome where
  | transferError (msg : String)
  | parseError (msg : String)
  | loaded
deriving DecidableEq, Repr

/-- Outcome of `pp.runpp(net, algorithm='nr')`: the solved per-bus
voltage magnitudes (`net.res_bus` rows in iteration order), the
`pp.LoadflowNotConverged` signal, or any other solver exception. -/
inductive SolveOutcome where
  | converged (busVoltages : List (Nat × ℚ))
  | diverged
  | solverError (msg : String)
deriving DecidableEq, Repr

/-- Oracle for one invocation's interactions with the outside world:
what loading and solving do, whether `put_item` succeeds, and the
timestamp `datetime.now().isoformat()` returns. -/
structure Backend where
  load : LoadOutcome
  solve : SolveOutcome
  persistOk : Bool
  now : String
deriving DecidableEq, Repr

/-- `os.path.basename`: the part of the path after the last `'/'`. -/
def basename (p : String) : String :=
  String.mk (p.toList.foldl (fun acc c => if c = '/' then [] else acc ++ [c]) [])

/-- `download_path = f"/tmp/{os.path.basename(file_key)}"`. -/
def downloadPathOf (file_key : String) : String :=
  "/tmp/" ++ basename file_key

/-- `json.dumps({'status': status, 'file': file_key})`. -/
def jsonDumpsStatusFile (status file_key : String) : String :=
  "\x7b\"status\": \"" ++ status ++ "\", \"file\": \"" ++ file_key ++ "\"\x7d"

/-- The handler's documented normal return value
`{'statusCode': 200, 'body': json.dumps(...)}`. -/
structure LambdaResponse where
  statusCode : Nat
  body : String
deriving DecidableEq, Repr

/-- Trace entry for one `s3.download_file(bucket, key, path)` request. -/
structure DownloadCall where
  bucket : String
  key : String
  path : String
deriving DecidableEq, Repr

/-- Full observable outcome of one handler run: the Python-level result
(`Except.error` = exception propagated to the platform, `Except.ok` =
normal return, with `none` for Python `None`), the table after the run,
and the traces of download requests and successful `put_item` writes. -/
structure RunResult where
  result : Except String (Option LambdaResponse)
  table : Table
  downloads : List DownloadCall
  puts : List ComplianceRecord
deriving Repr

/-- The item `_log_result(file_key, status, standard, violations)`
builds (`processed_by` is the constant `'AWS_Lambda'`; the timestamp
comes from the clock). -/
def mkRecord (file_key status standard : String) (violations : List Violation)
    (now : String) : ComplianceRecord :=
  { grid_id := file_key
    timestamp := now
    status := status
    compliance_standard := standard
    violations := violations
    processed_by := "AWS_Lambda" }

/-- `_log_result`: one `put_item` into the table, which either succeeds
or raises a storage-layer exception. -/
def logResult (table : Table) (b : Backend) (file_key status standard : String)
    (violations : List Violation) : Except String Table :=
  if b.persistOk then
    Except.ok (putItem table (mkRecord file_key status standard violations b.now))
  else Except.error "PersistenceError"

/-- Shallow embedding of `lambda_handler`.  `event` is `None`-like when
the `'Records'` key is missing (`KeyError`), and `some []` raises the
`IndexError` of `event['Records'][0]`.  Otherwise only the first record
is read; the artifact is downloaded to `/tmp/basename(key)`; the load,
solve, evaluate and persist stages follow the source control flow,
including the `except pp.LoadflowNotConverged` branch that returns the
(`None`) result of `_log_result` and the final `except Exception` that
re-raises. -/
def lambda_handler (event : Option (List S3EventRecord)) (b : Backend)
    (table : Table) : RunResult :=
  match event with
  | none => ⟨Except.error "KeyError: Records", table, [], []⟩
  | some [] => ⟨Except.error "IndexError: list index out of range", table, [], []⟩
  | some (record :: _) =>
    let file_key := record.object_key
    let dl : DownloadCall := ⟨record.bucket_name, file_key, downloadPathOf file_key⟩
    match b.load with
    | LoadOutcome.transferError msg => ⟨Except.error msg, table, [dl], []⟩
    | LoadOutcome.parseError msg => ⟨Except.error msg, table, [dl], []⟩
    | LoadOutcome.loaded =>
      match b.solve with
      | SolveOutcome.solverError msg => ⟨Except.error msg, table, [dl], []⟩
      | SolveOutcome.diverged =>
        match logResult table b file_key "ERROR" "Divergence" [] with
        | Except.ok t => ⟨Except.ok none, t, [dl],
            [mkRecord file_key "ERROR" "Divergence" [] b.now]⟩
        | Except.error msg => ⟨Except.error msg, table, [dl], []⟩
      | SolveOutcome.converged bvs =>
        let violations := evaluateViolations bvs
        let status := evalStatus bvs
        match logResult table b file_key status "VDE-AR-N 4110" violations with
        | Except.ok t => ⟨Except.ok (some ⟨200, jsonDumpsStatusFile status file_key⟩),
            t, [dl], [mkRecord file_key status "VDE-AR-N 4110" violations b.now]⟩
        | Except.error msg => ⟨Except.error msg, table, [dl], []⟩

/-- The exception message a run with backend `b` propagates, if any:
transfer, parse and non-divergence solver faults re-raise their own
message, and a storage fault during `put_item` re-raises the
persistence error.  `none` means the run returns normally. -/
def failureMessage (b : Backend) : Option String :=
  match b.load with
  | LoadOutcome.transferError msg => some msg
  | LoadOutcome.parseError msg => some msg
  | LoadOutcome.loaded =>
    match b.solve with
    | SolveOutcome.solverError msg => some msg
    | SolveOutcome.diverged => if b.persistOk then none else some "PersistenceError"
    | SolveOutcome.converged _ => if b.persistOk then none else some "PersistenceError"

/-- Whether a run ended in a propagated exception. -/
def runRaised (r : RunResult) : Bool :=
  match r.result with
  | Except.error _ => true
  | Except.ok _ => false

/-- Sanity check: `ratFloor` is the mathematical floor. -/
theorem ratFloor_eq_floor (q : ℚ) : ratFloor q = ⌊q⌋ := Rat.floor_def.symm

/-- Rounding an integer (as a rational) is the identity. -/
theorem roundHalfEven_intCast (n : ℤ) : roundHalfEven (n : ℚ) = n := by
  unfold roundHalfEven ratFloor
  rw [Rat.num_intCast, Rat.den_intCast]
  norm_num

/-- `round4` is idempotent: a value already rounded to 4 fractional
digits rounds to itself. -/
theorem round4_idempotent (q : ℚ) : round4 (round4 q) = round4 q := by
  unfold round4
  rw [div_mul_cancel₀ _ (by norm_num : (10000 : ℚ) ≠ 0), roundHalfEven_intCast]

/-- A bus inside the band produces no violation entry. -/
lemma checkViolation_eq_none {p : Nat × ℚ}
    (h1 : VOLTAGE_MIN_PU ≤ p.2) (h2 : p.2 ≤ VOLTAGE_MAX_PU) :
    checkViolation p = none := by
  unfold checkViolation
  exact if_neg (by rintro (hlt | hgt)
                   exacts [absurd hlt (not_lt.2 h1), absurd hgt (not_lt.2 h2)])

/-- The compliance loop in closed form: filter the out-of-band rows and
turn each into its violation entry, preserving iteration order. -/
lemma evaluateViolations_eq_filter_map (bvs : List (Nat × ℚ)) :
    evaluateViolations bvs =
      (bvs.filter fun p => decide (p.2 < VOLTAGE_MIN_PU ∨ p.2 > VOLTAGE_MAX_PU)).map
        fun p => { bus_id := p.1
                   voltage_pu := round4 p.2
                   type := if p.2 < VOLTAGE_MIN_PU then "Undervoltage" else "Overvoltage" } := by
  induction bvs with
  | nil => rfl
  | cons p l ih =>
    simp only [evaluateViolations, List.filterMap_cons, List.filter_cons,
      checkViolation] at ih ⊢
    by_cases hp : p.2 < VOLTAGE_MIN_PU ∨ p.2 > VOLTAGE_MAX_PU
    · rw [if_pos hp]
      simp [hp, ih]
    · rw [if_neg hp]
      simp [hp, ih]

/-- Claim C1: if every bus voltage lies in the closed band
[VOLTAGE_MIN_PU, VOLTAGE_MAX_PU] = [0.90, 1.10] (endpoints included),
the evaluation yields status `"PASS"` and an empty violations list. -/
theorem C1_all_in_band_pass (bvs : List (Nat × ℚ))
    (h : ∀ p ∈ bvs, VOLTAGE_MIN_PU ≤ p.2 ∧ p.2 ≤ VOLTAGE_MAX_PU) :
    evalStatus bvs = "PASS" ∧ evaluateViolations bvs = [] := by
  have hv : evaluateViolations bvs = [] := by
    unfold evaluateViolations
    rw [List.filterMap_eq_nil_iff]
    intro p hp
    exact checkViolation_eq_none (h p hp).1 (h p hp).2
  refine ⟨?_, hv⟩
  unfold evalStatus
  rw [hv]
  rfl

/-- Witness for C1 at scenario B: voltages {0: 1.00, 1: 0.95} are all in
band, so the evaluation passes with no violation. -/
theorem C1_witness :
    (∀ p ∈ [((0 : Nat), (1 : ℚ)), (1, 19/20)],
        VOLTAGE_MIN_PU ≤ p.2 ∧ p.2 ≤ VOLTAGE_MAX_PU) ∧
      (evalStatus [((0 : Nat), (1 : ℚ)), (1, 19/20)] = "PASS" ∧
        evaluateViolations [((0 : Nat), (1 : ℚ)), (1, 19/20)] = []) := by
  have hb : ∀ p ∈ [((0 : Nat), (1 : ℚ)), (1, 19/20)],
      VOLTAGE_MIN_PU ≤ p.2 ∧ p.2 ≤ VOLTAGE_MAX_PU := by
    intro p hp
    unfold VOLTAGE_MIN_PU VOLTAGE_MAX_PU
    simp only [List.mem_cons, List.not_mem_nil, or_false] at hp
    rcases hp with rfl | rfl <;> norm_num
  exact ⟨hb, C1_all_in_band_pass _ hb⟩

/-- Claim C2: as soon as one voltage is out of band, the status is
`"FAIL"` and the violations list holds exactly one entry per out-of-band
row, in iteration order, with `voltage_pu = round4` of the value and the
type `"Undervoltage"` iff the value is below the minimum, else
`"Overvoltage"`. -/
theorem C2_out_of_band_fail (bvs : List (Nat × ℚ))
    (h : ∃ p ∈ bvs, p.2 < VOLTAGE_MIN_PU ∨ p.2 > VOLTAGE_MAX_PU) :
    evalStatus bvs = "FAIL" ∧
      evaluateViolations bvs =
        (bvs.filter fun p => decide (p.2 < VOLTAGE_MIN_PU ∨ p.2 > VOLTAGE_MAX_PU)).map
          fun p => { bus_id := p.1
                     voltage_pu := round4 p.2
                     type := if p.2 < VOLTAGE_MIN_PU then "Undervoltage"
                             else "Overvoltage" } := by
  refine ⟨?_, evaluateViolations_eq_filter_map bvs⟩
  obtain ⟨p, hp, hout⟩ := h
  have hne : evaluateViolations bvs ≠ [] := by
    intro hnil
    have hnone := (List.filterMap_eq_nil_iff.1 hnil) p hp
    simp only [checkViolation, if_pos hout] at hnone
    exact Option.noConfusion hnone
  unfold evalStatus
  rw [if_neg (by simpa [List.isEmpty_iff] using hne)]

/-- Witness for C2 at scenario A: voltages {0: 1.00, 1: 0.85, 2: 1.12}
fail with an undervoltage entry for bus 1 and an overvoltage entry for
bus 2, in that order. -/
theorem C2_witness :
    (∃ p ∈ [((0 : Nat), (1 : ℚ)), (1, 17/20), (2, 28/25)],
        p.2 < VOLTAGE_MIN_PU ∨ p.2 > VOLTAGE_MAX_PU) ∧
      (evalStatus [((0 : Nat), (1 : ℚ)), (1, 17/20), (2, 28/25)] = "FAIL" ∧
        evaluateViolations [((0 : Nat), (1 : ℚ)), (1, 17/20), (2, 28/25)] =
          ([((0 : Nat), (1 : ℚ)), (1, 17/20), (2, 28/25)].filter
              fun p => decide (p.2 < VOLTAGE_MIN_PU ∨ p.2 > VOLTAGE_MAX_PU)).map
            fun p => { bus_id := p.1
                       voltage_pu := round4 p.2
                       type := if p.2 < VOLTAGE_MIN_PU then "Undervoltage"
                               else "Overvoltage" }) ∧
      evaluateViolations [((0 : Nat), (1 : ℚ)), (1, 17/20), (2, 28/25)] =
        [⟨1, 17/20, "Undervoltage"⟩, ⟨2, 28/25, "Overvoltage"⟩] := by
  have hex : ∃ p ∈ [((0 : Nat), (1 : ℚ)), (1, 17/20), (2, 28/25)],
      p.2 < VOLTAGE_MIN_PU ∨ p.2 > VOLTAGE_MAX_PU := by
    refine ⟨(1, 17/20), by simp, Or.inl ?_⟩
    unfold VOLTAGE_MIN_PU
    norm_num
  refine ⟨hex, C2_out_of_band_fail _ hex, ?_⟩
  have h1 : round4 (17/20) = 17/20 := by
    unfold round4 roundHalfEven ratFloor; norm_num
  have h2 : round4 (28/25) = 28/25 := by
    unfold round4 roundHalfEven ratFloor; norm_num
  simp only [evaluateViolations, List.filterMap_cons, List.filterMap_nil, checkViolation,
    VOLTAGE_MIN_PU, VOLTAGE_MAX_PU]
  norm_num [h1, h2]


/-- Counterexample to claim C9 as stated: for the single bus voltage
0.89999, the unrounded evaluation emits one violation (voltage_pu 0.9000)
while evaluating the already-rounded input (0.9, inside the band) emits
none, so the voltage_pu sequences differ. -/
theorem C9_counterexample :
    (evaluateViolations (roundInputs [((0 : Nat), (89999/100000 : ℚ))])).map
        Violation.voltage_pu ≠
      (evaluateViolations [((0 : Nat), (89999/100000 : ℚ))]).map
        Violation.voltage_pu := by
  have h1 : round4 (89999/100000) = 9/10 := by
    unfold round4 roundHalfEven ratFloor; norm_num
  simp only [roundInputs, List.map_cons, List.map_nil, evaluateViolations,
    List.filterMap_cons, List.filterMap_nil, checkViolation, h1,
    VOLTAGE_MIN_PU, VOLTAGE_MAX_PU]
  norm_num

/-- Claim C9 amended: when 4-digit rounding does not move any voltage
across the band boundaries (each value is out of band iff its rounding
is), evaluating the already-rounded inputs yields exactly the same
voltage_pu sequence as evaluating the unrounded inputs. -/
theorem C9_amended_round_idempmt (bvs : List (Nat × ℚ))
    (h : ∀ p ∈ bvs,
      ((p.2 < VOLTAGE_MIN_PU ∨ p.2 > VOLTAGE_MAX_PU) ↔
        (round4 p.2 < VOLTAGE_MIN_PU ∨ round4 p.2 > VOLTAGE_MAX_PU))) :
    (evaluateViolations (roundInputs bvs)).map Violation.voltage_pu =
      (evaluateViolations bvs).map Violation.voltage_pu := by
  induction bvs with
  | nil => rfl
  | cons p l ih =>
    have hp := h p (List.mem_cons_self p l)
    have hl := ih fun q hq => h q (List.mem_cons_of_mem p hq)
    simp only [roundInputs, List.map_cons, evaluateViolations,
      List.filterMap_cons, checkViolation] at hl ⊢
    by_cases hc : p.2 < VOLTAGE_MIN_PU ∨ p.2 > VOLTAGE_MAX_PU
    · rw [if_pos hc, if_pos (hp.1 hc)]
      simp only [List.map_cons, round4_idempotent, hl]
    · rw [if_neg hc, if_neg fun hx => hc (hp.2 hx)]
      exact hl

/-- Witness for the amended C9 at the single out-of-band voltage 0.85:
rounding it does not cross a boundary, and both evaluations produce the
voltage_pu sequence of the 0.85 violation. -/
theorem C9_amended_witness :
    (∀ p ∈ [((1 : Nat), (17/20 : ℚ))],
      ((p.2 < VOLTAGE_MIN_PU ∨ p.2 > VOLTAGE_MAX_PU) ↔
        (round4 p.2 < VOLTAGE_MIN_PU ∨ round4 p.2 > VOLTAGE_MAX_PU))) ∧
      (evaluateViolations (roundInputs [((1 : Nat), (17/20 : ℚ))])).map
          Violation.voltage_pu =
        (evaluateViolations [((1 : Nat), (17/20 : ℚ))]).map Violation.voltage_pu := by
  have h1 : round4 (17/20) = 17/20 := by
    unfold round4 roundHalfEven ratFloor; norm_num
  have hb : ∀ p ∈ [((1 : Nat), (17/20 : ℚ))],
      ((p.2 < VOLTAGE_MIN_PU ∨ p.2 > VOLTAGE_MAX_PU) ↔
        (round4 p.2 < VOLTAGE_MIN_PU ∨ round4 p.2 > VOLTAGE_MAX_PU)) := by
    intro p hp
    simp only [List.mem_cons, List.not_mem_nil, or_false] at hp
    subst hp
    rw [h1]
  exact ⟨hb, C9_amended_round_idempmt _ hb⟩

/-- In every run triggered by a non-empty record list, exactly one
download is requested, for the first record's bucket and key, to the
derived scratch path. -/
lemma downloads_eq (r : S3EventRecord) (rest : List S3EventRecord) (b : Backend)
    (t : Table) :
    (lambda_handler (some (r :: rest)) b t).downloads =
      [⟨r.bucket_name, r.object_key, downloadPathOf r.object_key⟩] := by
  cases hl : b.load with
  | transferError m => simp [lambda_handler, hl]
  | parseError m => simp [lambda_handler, hl]
  | loaded =>
    cases hs : b.solve with
    | solverError m => simp [lambda_handler, hl, hs]
    | diverged => cases hp : b.persistOk <;>
        simp [lambda_handler, logResult, hl, hs, hp]
    | converged bvs => cases hp : b.persistOk <;>
        simp [lambda_handler, logResult, hl, hs, hp]

/-- The scratch-filename fold never leaves a `'/'` in its accumulator. -/
lemma foldl_basename_no_slash (l acc : List Char) (h : '/' ∉ acc) :
    '/' ∉ l.foldl (fun acc c => if c = '/' then [] else acc ++ [c]) acc := by
  induction l generalizing acc with
  | nil => exact h
  | cons c cs ih =>
    simp only [List.foldl_cons]
    by_cases hc : c = '/'
    · rw [if_pos hc]
      exact ih [] (List.not_mem_nil '/')
    · rw [if_neg hc]
      refine ih (acc ++ [c]) ?_
      intro hm
      rcases List.mem_append.1 hm with hm | hm
      · exact h hm
      · exact hc (List.mem_singleton.1 hm).symm

/-- `basename` contains no path separator. -/
lemma basename_no_slash (p : String) : ∀ c ∈ (basename p).toList, c ≠ '/' := by
  intro c hc heq
  subst heq
  exact foldl_basename_no_slash p.toList [] (List.not_mem_nil '/') hc

/-- `basename` discards every directory component: prefixing any
directory (plus separator) leaves it unchanged. -/
lemma basename_drops_dirs (s leaf : String) :
    basename (s ++ "/" ++ leaf) = basename leaf := by
  unfold basename
  rw [show (s ++ "/" ++ leaf).toList = (s.toList ++ ['/']) ++ leaf.toList from by
        simp [String.toList, String.data_append]]
  rw [List.foldl_append, List.foldl_append]
  simp

/-- Claim C7: the scratch path of the single download is
`"/tmp/" ++ basename key` where `basename key` holds no `'/'` (the file
sits directly inside the temp root), and `basename` ignores all
directory components of the key. -/
theorem C7_scratch_path_sandboxed (r : S3EventRecord) (rest : List S3EventRecord)
    (b : Backend) (t : Table) :
    (∀ d ∈ (lambda_handler (some (r :: rest)) b t).downloads,
        d.path = "/tmp/" ++ basename r.object_key ∧
          ∀ c ∈ (basename r.object_key).toList, c ≠ '/') ∧
      ∀ s leaf : String, basename (s ++ "/" ++ leaf) = basename leaf := by
  refine ⟨?_, basename_drops_dirs⟩
  intro d hd
  rw [downloads_eq] at hd
  rcases List.mem_singleton.1 hd with rfl
  exact ⟨rfl, basename_no_slash r.object_key⟩

/-- A fixed triggering record used to instantiate the handler theorems
at concrete inputs. -/
def sampleRecord : S3EventRecord :=
  ⟨"grid-models", "scenarios/berlin_grid.json"⟩

/-- A backend whose solve diverges and whose persistence succeeds. -/
def divergedBackend : Backend :=
  ⟨LoadOutcome.loaded, SolveOutcome.diverged, true, "2026-10-12T00:00:00"⟩

/-- A backend whose solve converges on an empty bus table and whose
persistence succeeds. -/
def convergedBackend : Backend :=
  ⟨LoadOutcome.loaded, SolveOutcome.converged [], true, "2026-10-12T00:00:00"⟩

/-- A backend whose artifact transfer fails. -/
def transferFailBackend : Backend :=
  ⟨LoadOutcome.transferError "AccessDenied", SolveOutcome.converged [], true,
    "2026-10-12T00:00:00"⟩

/-- Witness for C7 at a key with directory components: the single
download goes to `/tmp/berlin_grid.json`. -/
theorem C7_witness :
    ⟨"grid-models", "scenarios/berlin_grid.json",
        downloadPathOf "scenarios/berlin_grid.json"⟩ ∈
      (lambda_handler (some [sampleRecord]) divergedBackend []).downloads ∧
      (DownloadCall.path ⟨"grid-models", "scenarios/berlin_grid.json",
          downloadPathOf "scenarios/berlin_grid.json"⟩ =
        "/tmp/" ++ basename sampleRecord.object_key ∧
        ∀ c ∈ (basename sampleRecord.object_key).toList, c ≠ '/') := by
  have hmem : (⟨"grid-models", "scenarios/berlin_grid.json",
      downloadPathOf "scenarios/berlin_grid.json"⟩ : DownloadCall) ∈
      (lambda_handler (some [sampleRecord]) divergedBackend []).downloads := by
    rw [downloads_eq]
    exact List.mem_singleton.2 rfl
  exact ⟨hmem,
    (C7_scratch_path_sandboxed sampleRecord [] divergedBackend []).1 _ hmem⟩

/-- Claim C8: only the first record of the batch matters — the run is
identical whatever follows it. -/
theorem C8_first_record_only (r : S3EventRecord) (rest : List S3EventRecord)
    (b : Backend) (t : Table) :
    lambda_handler (some (r :: rest)) b t = lambda_handler (some [r]) b t := rfl

/-- Claim C10: an event with no `'Records'` key or an empty record list
makes the handler raise; nothing is downloaded and nothing is persisted. -/
theorem C10_empty_event_raises (event : Option (List S3EventRecord)) (b : Backend)
    (t : Table) (h : event = none ∨ event = some []) :
    runRaised (lambda_handler event b t) = true ∧
      (lambda_handler event b t).table = t ∧
      (lambda_handler event b t).puts = [] ∧
      (lambda_handler event b t).downloads = [] := by
  rcases h with rfl | rfl
  · exact ⟨rfl, rfl, rfl, rfl⟩
  · exact ⟨rfl, rfl, rfl, rfl⟩

/-- Witness for C10 at the record-less event. -/
theorem C10_witness :
    ((none : Option (List S3EventRecord)) = none ∨
        (none : Option (List S3EventRecord)) = some []) ∧
      (runRaised (lambda_handler none divergedBackend []) = true ∧
        (lambda_handler none divergedBackend []).table = [] ∧
        (lambda_handler none divergedBackend []).puts = [] ∧
        (lambda_handler none divergedBackend []).downloads = []) :=
  ⟨Or.inl rfl, C10_empty_event_raises none divergedBackend [] (Or.inl rfl)⟩

/-- Claim C3: on a classified divergence with working persistence, the
run writes exactly one record — status `"ERROR"`, empty violations,
standard set to the divergence marker — and raises no exception. -/
theorem C3_divergence_persists_error (r : S3EventRecord) (rest : List S3EventRecord)
    (b : Backend) (t : Table) (hl : b.load = LoadOutcome.loaded)
    (hs : b.solve = SolveOutcome.diverged) (hp : b.persistOk = true) :
    (lambda_handler (some (r :: rest)) b t).puts =
        [mkRecord r.object_key "ERROR" "Divergence" [] b.now] ∧
      (mkRecord r.object_key "ERROR" "Divergence" [] b.now).status = "ERROR" ∧
      (mkRecord r.object_key "ERROR" "Divergence" [] b.now).violations = [] ∧
      (mkRecord r.object_key "ERROR" "Divergence" [] b.now).compliance_standard =
        "Divergence" ∧
      (lambda_handler (some (r :: rest)) b t).table =
        putItem t (mkRecord r.object_key "ERROR" "Divergence" [] b.now) ∧
      runRaised (lambda_handler (some (r :: rest)) b t) = false := by
  simp [lambda_handler, logResult, hl, hs, hp, runRaised, mkRecord]

/-- Witness for C3 at a concrete diverging run. -/
theorem C3_witness :
    divergedBackend.load = LoadOutcome.loaded ∧
      divergedBackend.solve = SolveOutcome.diverged ∧
      divergedBackend.persistOk = true ∧
      ((lambda_handler (some [sampleRecord]) divergedBackend []).puts =
          [mkRecord sampleRecord.object_key "ERROR" "Divergence" []
            divergedBackend.now] ∧
        (mkRecord sampleRecord.object_key "ERROR" "Divergence" []
            divergedBackend.now).status = "ERROR" ∧
        (mkRecord sampleRecord.object_key "ERROR" "Divergence" []
            divergedBackend.now).violations = [] ∧
        (mkRecord sampleRecord.object_key "ERROR" "Divergence" []
            divergedBackend.now).compliance_standard = "Divergence" ∧
        (lambda_handler (some [sampleRecord]) divergedBackend []).table =
          putItem [] (mkRecord sampleRecord.object_key "ERROR" "Divergence" []
            divergedBackend.now) ∧
        runRaised (lambda_handler (some [sampleRecord]) divergedBackend []) =
          false) :=
  ⟨rfl, rfl, rfl,
    C3_divergence_persists_error sampleRecord [] divergedBackend [] rfl rfl rfl⟩

/-- Counterexample to claim C4 as stated: the diverging run completes
without raising, yet its return value is Python `None` (the value of
`return _log_result(...)`), not the documented
`{'statusCode': 200, 'body': ...}` object. -/
theorem C4_counterexample :
    (lambda_handler (some [sampleRecord]) divergedBackend []).result =
        Except.ok none ∧
      (Except.ok (none : Option LambdaResponse) :
          Except String (Option LambdaResponse)) ≠
        Except.ok (some ⟨200,
          jsonDumpsStatusFile "ERROR" "scenarios/berlin_grid.json"⟩) := by
  exact ⟨rfl, by simp⟩

/-- Claim C4 amended: a run that completes without raising via the
converged path returns `{'statusCode': 200, 'body': json.dumps({'status':
status, 'file': key})}`; the divergence path also completes without
raising but returns `None` instead of that object. -/
theorem C4_amended_return_value (r : S3EventRecord) (rest : List S3EventRecord)
    (b : Backend) (t : Table) (bvs : List (Nat × ℚ))
    (hl : b.load = LoadOutcome.loaded) (hp : b.persistOk = true) :
    (b.solve = SolveOutcome.converged bvs →
        (lambda_handler (some (r :: rest)) b t).result =
          Except.ok (some ⟨200, jsonDumpsStatusFile (evalStatus bvs) r.object_key⟩)) ∧
      (b.solve = SolveOutcome.diverged →
        (lambda_handler (some (r :: rest)) b t).result = Except.ok none) := by
  constructor <;> intro hs <;> simp [lambda_handler, logResult, hl, hs, hp]

/-- Witness for the amended C4 at a converged run over an empty bus
table. -/
theorem C4_witness :
    convergedBackend.load = LoadOutcome.loaded ∧
      convergedBackend.persistOk = true ∧
      (lambda_handler (some [sampleRecord]) convergedBackend []).result =
        Except.ok (some ⟨200,
          jsonDumpsStatusFile (evalStatus []) sampleRecord.object_key⟩) :=
  ⟨rfl, rfl,
    (C4_amended_return_value sampleRecord [] convergedBackend [] [] rfl rfl).1 rfl⟩

/-- Claim C5: every failure other than classified divergence — transfer,
parse, other solver fault, or a persistence fault — leaves the table
untouched, persists nothing, and re-raises the original message. -/
theorem C5_failures_propagate (r : S3EventRecord) (rest : List S3EventRecord)
    (b : Backend) (t : Table) (msg : String)
    (h : failureMessage b = some msg) :
    (lambda_handler (some (r :: rest)) b t).result = Except.error msg ∧
      (lambda_handler (some (r :: rest)) b t).puts = [] ∧
      (lambda_handler (some (r :: rest)) b t).table = t := by
  cases hl : b.load with
  | transferError m =>
    simp only [failureMessage, hl, Option.some_inj] at h
    subst h
    simp [lambda_handler, hl]
  | parseError m =>
    simp only [failureMessage, hl, Option.some_inj] at h
    subst h
    simp [lambda_handler, hl]
  | loaded =>
    cases hs : b.solve with
    | solverError m =>
      simp only [failureMessage, hl, hs, Option.some_inj] at h
      subst h
      simp [lambda_handler, hl, hs]
    | diverged =>
      cases hp : b.persistOk with
      | true => simp [failureMessage, hl, hs, hp] at h
      | false =>
        simp only [failureMessage, hl, hs, hp, if_neg, Bool.false_eq_true,
          if_false, Option.some_inj] at h
        subst h
        simp [lambda_handler, logResult, hl, hs, hp]
    | converged bvs =>
      cases hp : b.persistOk with
      | true => simp [failureMessage, hl, hs, hp] at h
      | false =>
        simp only [failureMessage, hl, hs, hp, if_neg, Bool.false_eq_true,
          if_false, Option.some_inj] at h
        subst h
        simp [lambda_handler, logResult, hl, hs, hp]

/-- Witness for C5 at a failed artifact transfer. -/
theorem C5_witness :
    failureMessage transferFailBackend = some "AccessDenied" ∧
      ((lambda_handler (some [sampleRecord]) transferFailBackend []).result =
          Except.error "AccessDenied" ∧
        (lambda_handler (some [sampleRecord]) transferFailBackend []).puts = [] ∧
        (lambda_handler (some [sampleRecord]) transferFailBackend []).table = []) :=
  ⟨rfl, C5_failures_propagate sampleRecord [] transferFailBackend [] "AccessDenied" rfl⟩

/-- A key present in `putItem t r` was present in `t` or is `r`'s key. -/
lemma mem_keys_putItem (t : Table) (r : ComplianceRecord) (x : String)
    (h : x ∈ (putItem t r).map Prod.fst) :
    x ∈ t.map Prod.fst ∨ x = r.grid_id := by
  induction t with
  | nil =>
    simp only [putItem, List.map_cons, List.map_nil, List.mem_singleton] at h
    exact Or.inr h
  | cons p tl ih =>
    by_cases hp : p.1 = r.grid_id
    · simp only [putItem, if_pos hp, List.map_cons, List.mem_cons] at h ⊢
      tauto
    · simp only [putItem, if_neg hp, List.map_cons, List.mem_cons] at h ⊢
      rcases h with h | h
      · tauto
      · rcases ih h with h | h <;> tauto

/-- `put_item` keeps the table's keys duplicate-free. -/
lemma nodupKeys_putItem (t : Table) (r : ComplianceRecord)
    (h : (t.map Prod.fst).Nodup) : ((putItem t r).map Prod.fst).Nodup := by
  induction t with
  | nil => simp [putItem]
  | cons p tl ih =>
    simp only [List.map_cons, List.nodup_cons] at h
    by_cases hp : p.1 = r.grid_id
    · simp only [putItem, if_pos hp, List.map_cons, List.nodup_cons]
      exact ⟨hp ▸ h.1, h.2⟩
    · simp only [putItem, if_neg hp, List.map_cons, List.nodup_cons]
      refine ⟨fun hmem => ?_, ih h.2⟩
      rcases mem_keys_putItem tl r p.1 hmem with hm | hm
      · exact h.1 hm
      · exact hp hm

/-- A table with no entry under `k` filters to nothing at `k`. -/
lemma filter_key_eq_nil (t : Table) (k : String) (h : k ∉ t.map Prod.fst) :
    t.filter (fun p => p.1 == k) = [] := by
  induction t with
  | nil => rfl
  | cons p tl ih =>
    simp only [List.map_cons, List.mem_cons] at h
    push_neg at h
    rw [List.filter_cons, if_neg (by simp [Ne.symm h.1])]
    exact ih h.2

/-- On a duplicate-free table, after `put_item r` the entries under
`r`'s key are exactly the one just written. -/
lemma putItem_filter_key (t : Table) (r : ComplianceRecord)
    (h : (t.map Prod.fst).Nodup) :
    (putItem t r).filter (fun p => p.1 == r.grid_id) = [(r.grid_id, r)] := by
  induction t with
  | nil => simp [putItem]
  | cons p tl ih =>
    simp only [List.map_cons, List.nodup_cons] at h
    by_cases hp : p.1 = r.grid_id
    · rw [show putItem (p :: tl) r = (r.grid_id, r) :: tl from by
          simp [putItem, hp]]
      rw [List.filter_cons, if_pos (by simp)]
      rw [filter_key_eq_nil tl r.grid_id (hp ▸ h.1)]
    · rw [show putItem (p :: tl) r = p :: putItem tl r from by
          simp [putItem, hp]]
      rw [List.filter_cons, if_neg (by simp [hp])]
      exact ih h.2

/-- Claim C6: writing two records with the same `grid_id` in sequence
leaves exactly one stored entry under that key, equal in full to the
second write (last-write-wins whole-item overwrite). -/
theorem C6_last_write_wins (t : Table) (r1 r2 : ComplianceRecord)
    (hnd : (t.map Prod.fst).Nodup) (hk : r1.grid_id = r2.grid_id) :
    (putItem (putItem t r1) r2).filter (fun p => p.1 == r1.grid_id) =
      [(r2.grid_id, r2)] := by
  simp only [hk]
  exact putItem_filter_key _ _ (nodupKeys_putItem t r1 hnd)

/-- Witness for C6: a PASS record then a FAIL record for the same grid
leave exactly the FAIL record stored. -/
theorem C6_witness :
    ((([] : Table).map Prod.fst).Nodup ∧
        (mkRecord "grid.json" "PASS" "VDE-AR-N 4110" [] "t1").grid_id =
          (mkRecord "grid.json" "FAIL" "VDE-AR-N 4110"
            [⟨1, 17/20, "Undervoltage"⟩] "t2").grid_id) ∧
      (putItem (putItem [] (mkRecord "grid.json" "PASS" "VDE-AR-N 4110" [] "t1"))
            (mkRecord "grid.json" "FAIL" "VDE-AR-N 4110"
              [⟨1, 17/20, "Undervoltage"⟩] "t2")).filter
          (fun p => p.1 == (mkRecord "grid.json" "PASS" "VDE-AR-N 4110" []
            "t1").grid_id) =
        [((mkRecord "grid.json" "FAIL" "VDE-AR-N 4110"
            [⟨1, 17/20, "Undervoltage"⟩] "t2").grid_id,
          mkRecord "grid.json" "FAIL" "VDE-AR-N 4110"
            [⟨1, 17/20, "Undervoltage"⟩] "t2")] :=
  ⟨⟨List.nodup_nil, rfl⟩,
    C6_last_write_wins [] _ _ List.nodup_nil rfl⟩
